import Mathlib

/-!
Verification of the mythoscape backend against its natural-language
specification.  Each Python module relevant to the checked claims is given a
shallow embedding: pure functions become Lean functions, dictionary state
becomes explicit association lists, `datetime.now()` becomes an explicit
clock parameter, and code that can raise becomes `Except`-valued.
Python `str` operations are modelled over `String.data` (lists of
characters) so that all definitions evaluate by kernel reduction.
-/

namespace Mythoscape

/-! ### Python string primitives

Minimal models of the `str` methods the backend uses: `strip`, `startswith`,
`endswith`, `in` (character membership), and `split(sep, 1)`. -/

/-- Characters removed by Python `str.strip()` (ASCII whitespace). -/
def pyIsSpace (c : Char) : Bool :=
  c = ' ' || c = '\t' || c = '\n' || c = '\r' || c = '\x0b' || c = '\x0c'

/-- Python `s.strip()`. -/
def pyStrip (s : String) : String :=
  ⟨((s.data.dropWhile pyIsSpace).reverse.dropWhile pyIsSpace).reverse⟩

/-- Python `s.startswith(p)`. -/
def pyStartsWith (s p : String) : Bool :=
  p.data.isPrefixOf s.data

/-- Python `s.endswith(p)`. -/
def pyEndsWith (s p : String) : Bool :=
  p.data.isSuffixOf s.data

/-- Python `c in s` for a single character `c`. -/
def pyContainsChar (s : String) (c : Char) : Bool :=
  s.data.contains c

/-- Helper for `split(sep, 1)`: split a character list at the first
occurrence of `sep`.  When `sep` does not occur the second component is
empty; callers guard with `pyContainsChar` exactly as the Python code
guards with `'=' in line`. -/
def splitAtFirst (sep : Char) : List Char → List Char × List Char
  | [] => ([], [])
  | c :: cs =>
    if c = sep then ([], cs)
    else
      let p := splitAtFirst sep cs
      (c :: p.1, p.2)

/-- Python `s.split(sep, 1)` restricted to the two-part case, with both
parts `strip()`ed afterwards (the combination the env loader uses). -/
def pySplitFirstStripped (sep : Char) (s : String) : String × String :=
  let p := splitAtFirst sep s.data
  (pyStrip ⟨p.1⟩, pyStrip ⟨p.2⟩)

/-- Python `str(d)` for a dict of strings — a braced, comma-separated list
of `'key': 'value'` pairs (CPython renders each key and value with `repr`;
quote-escaping corner cases aside). -/
def pyStrOfDict (d : List (String × String)) : String :=
  "\x7b" ++
    String.intercalate ", " (d.map (fun p => "'" ++ p.1 ++ "': '" ++ p.2 ++ "'")) ++
    "\x7d"

/-! ### `app/utils/cache.py` — `CacheManager`

The cache dictionary `self._cache : dict[str, dict]` is modelled as an
association list with unique keys kept in insertion order; each entry holds
`value`, `created_at` and `expires_at` exactly as in the source.  The wall
clock (`datetime.now()`) is an explicit `Int` parameter. -/

structure CacheEntry where
  value : String
  created_at : Int
  expires_at : Option Int
deriving Repr, DecidableEq

/-- The in-memory cache dictionary. -/
abbrev CacheDict := List (String × CacheEntry)

/-- `self._cache[key] = entry` — replace in place or append. -/
def dictInsert (key : String) (entry : CacheEntry) : CacheDict → CacheDict
  | [] => [(key, entry)]
  | (k, e) :: rest =>
    if k = key then (key, entry) :: rest else (k, e) :: dictInsert key entry rest

/-- `CacheManager.set(key, value, expire_seconds)`.  The source computes
`expires_at = None` unless `expire_seconds` is truthy (`if expire_seconds:`),
so both `None` and `0` leave the entry without an expiry time. -/
def cache_set (now : Int) (key value : String) (expire_seconds : Option Int)
    (cache : CacheDict) : CacheDict :=
  let expires_at : Option Int :=
    match expire_seconds with
    | none => none
    | some s => if s = 0 then none else some (now + s)
  dictInsert key { value := value, created_at := now, expires_at := expires_at } cache

/-- `CacheManager.get(key)`: returns the stored value, evicting (and
returning absent) when the entry has an expiry time in the past.  The pair
is (returned value, cache after the call). -/
def cache_get (now : Int) (key : String) (cache : CacheDict) :
    Option String × CacheDict :=
  match cache.find? (fun p => p.1 == key) with
  | none => (none, cache)
  | some (_, e) =>
    match e.expires_at with
    | some t =>
      if now > t then (none, cache.filter (fun p => !(p.1 == key)))
      else (some e.value, cache)
    | none => (some e.value, cache)

/-- `CacheManager.delete_pattern(pattern)`: only a trailing `*` is a
wildcard (prefix match); any other pattern is an exact-key match.  Returns
the number of deleted keys and the remaining cache. -/
def delete_pattern (pat : String) (cache : CacheDict) : Nat × CacheDict :=
  let keysToDelete :=
    if pyEndsWith pat "*" then
      let pref : String := ⟨pat.data.dropLast⟩
      (cache.map (·.1)).filter (fun k => pyStartsWith k pref)
    else
      (cache.map (·.1)).filter (fun k => k == pat)
  (keysToDelete.length, cache.filter (fun p => !(keysToDelete.contains p.1)))

/-! ### `app/services/multiagent_service.py` — cache key and user-cache clearing -/

/-- `MultiAgentService._generate_cache_key`: Python `hash(...)` results are
passed in as integers; the key interpolates their decimal representations. -/
def generate_cache_key (input_hash : Int) (user_id : String) (context_hash : Int) :
    String :=
  "multiagent:" ++ toString input_hash ++ ":user:" ++ user_id ++
    ":context:" ++ toString context_hash

/-- `MultiAgentService.clear_user_cache(user_id)`: builds the pattern
`multiagent:*:user:<id>:*` and delegates to `delete_pattern`. -/
def clear_user_cache (user_id : String) (cache : CacheDict) : Nat × CacheDict :=
  delete_pattern ("multiagent:*:user:" ++ user_id ++ ":*") cache

/-! ### `app/utils/env.py` — `load_env`

The custom multi-line parser.  The file is a list of raw lines; the
sequence of `os.environ[...] = ...` commits is accumulated in order as an
association list.  Python truthiness of the accumulator strings
(`if current_var and current_value:`) is modelled explicitly. -/

/-- Python truthiness of the `current_var` accumulator (`None` and the empty
string are both falsy). -/
def varTruthy : Option String → Bool
  | none => false
  | some s => s ≠ ""

/-- The loop state of `load_env`: `current_var`, `current_value`, and the
environment assignments committed so far, in commit order. -/
structure EnvState where
  current_var : Option String
  current_value : String
  committed : List (String × String)
deriving Repr, DecidableEq

/-- One iteration of `load_env`'s `for line in f` loop. -/
def load_env_step (st : EnvState) (rawLine : String) : EnvState :=
  let line := pyStrip rawLine
  if line = "" then
    -- blank line: commit the current variable if both accumulators are truthy
    if varTruthy st.current_var && st.current_value ≠ "" then
      { current_var := none, current_value := "",
        committed := st.committed ++ [(st.current_var.getD "", st.current_value)] }
    else st
  else if pyStartsWith line "#" then
    st
  else if pyContainsChar line '=' && !varTruthy st.current_var then
    -- new variable
    let p := pySplitFirstStripped '=' line
    if !pyEndsWith p.2 "\\" then
      { current_var := none, current_value := "",
        committed := st.committed ++ [(p.1, p.2)] }
    else
      { st with current_var := some p.1, current_value := ⟨p.2.data.dropLast⟩ }
  else if varTruthy st.current_var then
    -- continuation of an existing variable
    if pyEndsWith line "\\" then
      { st with current_value := st.current_value ++ (⟨line.data.dropLast⟩ : String) ++ "\n" }
    else
      { st with current_value := st.current_value ++ line ++ "\n" }
  else
    st

/-- `load_env` restricted to its parsing/committing logic: folds the loop
over the file's lines and performs the final end-of-file commit.  Returns
the `os.environ` assignments in the order they were made. -/
def load_env (lines : List String) : List (String × String) :=
  let st := lines.foldl load_env_step { current_var := none, current_value := "", committed := [] }
  if varTruthy st.current_var && st.current_value ≠ "" then
    st.committed ++ [(st.current_var.getD "", st.current_value)]
  else st.committed

/-- Modelled from the spec's words, for comparison with `load_env`: a line
whose value ends in a trailing backslash continues onto the next line with
the backslash stripped and a newline inserted between the joined lines;
`#`-prefixed comment lines are skipped; the accumulated variable is
committed once a blank line or a non-continued line is reached. -/
def load_env_claimed_step (st : Option (String × List String) × List (String × String))
    (rawLine : String) : Option (String × List String) × List (String × String) :=
  let line := pyStrip rawLine
  match st.1 with
  | some (key, segs) =>
    if line = "" then
      (none, st.2 ++ [(key, String.intercalate "\n" segs)])
    else if pyStartsWith line "#" then
      st
    else if pyEndsWith line "\\" then
      (some (key, segs ++ [⟨line.data.dropLast⟩]), st.2)
    else
      -- a non-continued line is reached: it completes the value, which is committed
      (none, st.2 ++ [(key, String.intercalate "\n" (segs ++ [line]))])
  | none =>
    if line = "" then st
    else if pyStartsWith line "#" then st
    else if pyContainsChar line '=' then
      let p := pySplitFirstStripped '=' line
      if pyEndsWith p.2 "\\" then
        (some (p.1, [⟨p.2.data.dropLast⟩]), st.2)
      else
        (none, st.2 ++ [(p.1, p.2)])
    else st

/-- The spec-claimed parser as a whole-file function. -/
def load_env_claimed (lines : List String) : List (String × String) :=
  let st := lines.foldl load_env_claimed_step (none, [])
  match st.1 with
  | some (key, segs) => st.2 ++ [(key, String.intercalate "\n" segs)]
  | none => st.2

/-- Join a list of continuation lines the way `load_env` accumulates them:
each line contributes itself followed by a newline. -/
def joinContinuations : List String → String
  | [] => ""
  | c :: cs => c ++ "\n" ++ joinContinuations cs

/-! ### `app/middleware/auth.py` and `app/dependencies/auth.py`

The HTTP request carries the client host (`request.client.host`, absent
when there is no client) and the parsed `Authorization` header as an
optional (scheme, credentials) pair — absent when no header was sent.
Token verification against the Supabase backend and subject extraction
from the JWT payload are abstract function parameters.  Errors carry the
HTTP status code. -/

structure HTTPRequest where
  client_host : Option String
  authorization : Option (String × String)
deriving Repr, DecidableEq

/-- `is_localhost_request`: the client host is one of the loopback names
(`None` is not in the list). -/
def is_localhost_request (req : HTTPRequest) : Bool :=
  match req.client_host with
  | some h => ["127.0.0.1", "localhost", "::1"].contains h
  | none => false

/-- `JWTBearer.__call__` as a dependency: rejects a request without
credentials, a non-Bearer scheme, or a token the backend does not verify,
each with HTTP 401 (with FastAPI's `auto_error` base class the missing-
header case is rejected with 403 even before this method's own branch
runs; either way the request is rejected before the dependent resolver's
body executes).  On success it yields the token. -/
def jwt_bearer_call (verify_token : String → Bool) (req : HTTPRequest) :
    Except Nat String :=
  match req.authorization with
  | none => .error 401
  | some (scheme, token) =>
    if scheme ≠ "Bearer" then .error 401
    else if !verify_token token then .error 401
    else .ok token

/-- `get_current_user_id`: extract the `sub` claim from the (already
verified) token; an absent or falsy subject, or a malformed token, is a
401. -/
def get_current_user_id (decode_sub : String → Option String) (token : String) :
    Except Nat String :=
  match decode_sub token with
  | some uid => if uid = "" then .error 401 else .ok uid
  | none => .error 401

/-- `get_authenticated_user` composed with its `Depends(jwt_bearer)`
parameter: FastAPI resolves the `jwt_bearer` dependency first, so the body
(and with it the localhost check) only runs once a verified bearer token
has been produced.  Any failure extracting the user id is converted to
401. -/
def get_authenticated_user (verify_token : String → Bool)
    (decode_sub : String → Option String) (req : HTTPRequest) :
    Except Nat String :=
  match jwt_bearer_call verify_token req with
  | .error s => .error s
  | .ok token =>
    if is_localhost_request req then .ok "localhost_user"
    else
      match get_current_user_id decode_sub token with
      | .ok uid => .ok uid
      | .error _ => .error 401

/-! ### `app/agents/specialists/rules_agent.py` — dice results and consequences -/

/-- The dictionary built by `RulesAgent._perform_dice_test` (the random
4dF roll and the archetype/approach selections are inputs here; the test
itself only combines them arithmetically). -/
structure DiceResult where
  dice_roll : Int
  archetype_bonus : Int
  approach_bonus : Int
  total_result : Int
  difficulty : Int
  success : Bool
  margin : Int
deriving Repr, DecidableEq

/-- `_perform_dice_test`'s arithmetic: `total = roll + bonuses`,
`success = total >= difficulty`, `margin = total - difficulty`. -/
def perform_dice_test (roll archetype_bonus approach_bonus difficulty : Int) :
    DiceResult :=
  let total := roll + archetype_bonus + approach_bonus
  { dice_roll := roll
    archetype_bonus := archetype_bonus
    approach_bonus := approach_bonus
    total_result := total
    difficulty := difficulty
    success := decide (total ≥ difficulty)
    margin := total - difficulty }

/-- The consequences dictionary of `_analyze_rule_consequences`. -/
structure RuleConsequences where
  success_level : String
  narrative_impact : String
  mechanical_effects : List String
deriving Repr, DecidableEq

/-- `RulesAgent._analyze_rule_consequences`: starts from
(`"none"`, `"low"`, no effects) and classifies by margin when a dice
result is present. -/
def analyze_rule_consequences (dice_result : Option DiceResult) : RuleConsequences :=
  match dice_result with
  | none => { success_level := "none", narrative_impact := "low", mechanical_effects := [] }
  | some d =>
    if d.margin ≥ 3 then
      { success_level := "critical_success", narrative_impact := "high",
        mechanical_effects := ["bonus_outcome"] }
    else if d.margin ≥ 0 then
      { success_level := "success", narrative_impact := "medium",
        mechanical_effects := [] }
    else if d.margin ≥ -2 then
      { success_level := "partial_success", narrative_impact := "medium",
        mechanical_effects := ["complication"] }
    else
      { success_level := "failure", narrative_impact := "high",
        mechanical_effects := ["consequence"] }

/-! ### `app/agents/specialists/time_agent.py` — campaign time

`_update_campaign_time` starts from `new_time = current_time.copy()` and
every subsequent statement writes only into `new_time`.  The embedding
makes that explicit: the function body is a sequence of transformers on a
pair (the caller's `current_time` binding, the fresh `new_time` dict), and
each transformer touches only the `new_time` component, mirroring the
assignment targets in the source.  Python `//` and `%` are `Int.fdiv` and
`Int.fmod` (floor division). -/

structure CampaignTime where
  year : Int
  month : Int
  day : Int
  hour : Int
  minute : Int
  season : String
  moon_phase : String
  weather : String
deriving Repr, DecidableEq

/-- The time-passage dictionary of `_calculate_time_passage`; `minutes`
and `hours` keys are each optional. -/
structure TimePassage where
  minutes : Option Int
  hours : Option Int
  description : String
deriving Repr, DecidableEq

/-- The default 15-minute passage for unspecified actions. -/
def defaultTimePassage : TimePassage :=
  { minutes := some 15, hours := none, description := "ação padrão" }

/-- `_calculate_season`: `month in [12, 1, 2]` → winter, etc. -/
def calculate_season (month : Int) : String :=
  if month = 12 || month = 1 || month = 2 then "winter"
  else if month = 3 || month = 4 || month = 5 then "spring"
  else if month = 6 || month = 7 || month = 8 then "summer"
  else "autumn"

/-- `_calculate_moon_phase`: 28-day cycle on `day % 28`. -/
def calculate_moon_phase (day : Int) : String :=
  let lunar_day := day.fmod 28
  if lunar_day < 7 then "new_moon"
  else if lunar_day < 14 then "waxing_gibbous"
  else if lunar_day < 21 then "full_moon"
  else "waning_gibbous"

/-- The local state of `_update_campaign_time`'s body: the caller's
`current_time` mapping and the `new_time` mapping being built. -/
structure TimeUpdateState where
  current_time : CampaignTime
  new_time : CampaignTime
deriving Repr, DecidableEq

/-- `new_time = current_time.copy()` -/
def timeCopyStep (t : CampaignTime) : TimeUpdateState :=
  { current_time := t, new_time := t }

/-- The `if "minutes" in time_passage:` block (add minutes, carry into
hours at 60). -/
def addMinutesStep (p : TimePassage) (s : TimeUpdateState) : TimeUpdateState :=
  { s with new_time :=
    match p.minutes with
    | none => s.new_time
    | some m =>
      let nt := { s.new_time with minute := s.new_time.minute + m }
      if nt.minute ≥ 60 then
        { nt with hour := nt.hour + nt.minute.fdiv 60, minute := nt.minute.fmod 60 }
      else nt }

/-- The `if "hours" in time_passage:` block. -/
def addHoursStep (p : TimePassage) (s : TimeUpdateState) : TimeUpdateState :=
  { s with new_time :=
    match p.hours with
    | none => s.new_time
    | some h => { s.new_time with hour := s.new_time.hour + h } }

/-- Carry hours into days at 24. -/
def carryHoursStep (s : TimeUpdateState) : TimeUpdateState :=
  { s with new_time :=
    let nt := s.new_time
    if nt.hour ≥ 24 then
      { nt with day := nt.day + nt.hour.fdiv 24, hour := nt.hour.fmod 24 }
    else nt }

/-- Carry days into months (simplified 30-day months). -/
def carryDaysStep (s : TimeUpdateState) : TimeUpdateState :=
  { s with new_time :=
    let nt := s.new_time
    if nt.day > 30 then
      { nt with month := nt.month + (nt.day - 1).fdiv 30,
                day := (nt.day - 1).fmod 30 + 1 }
    else nt }

/-- Carry months into years at 12. -/
def carryMonthsStep (s : TimeUpdateState) : TimeUpdateState :=
  { s with new_time :=
    let nt := s.new_time
    if nt.month > 12 then
      { nt with year := nt.year + (nt.month - 1).fdiv 12,
                month := (nt.month - 1).fmod 12 + 1 }
    else nt }

/-- Recompute the derived `season` and `moon_phase` fields. -/
def derivedFieldsStep (s : TimeUpdateState) : TimeUpdateState :=
  { s with new_time :=
    { s.new_time with
      season := calculate_season s.new_time.month
      moon_phase := calculate_moon_phase s.new_time.day } }

/-- `TimeAgent._update_campaign_time` as the composition of its body's
statements, returning the final local state. -/
def update_campaign_time_run (t : CampaignTime) (p : TimePassage) : TimeUpdateState :=
  derivedFieldsStep (carryMonthsStep (carryDaysStep (carryHoursStep
    (addHoursStep p (addMinutesStep p (timeCopyStep t))))))

/-- `TimeAgent._update_campaign_time`'s return value. -/
def update_campaign_time (t : CampaignTime) (p : TimePassage) : CampaignTime :=
  (update_campaign_time_run t p).new_time

/-- One event dictionary emitted by `_check_temporal_events`. -/
structure TemporalEvent where
  type : String
  description : String
  effects : List String
deriving Repr, DecidableEq

/-- The `day_change` event dictionary. -/
def day_change_event : TemporalEvent :=
  { type := "day_change", description := "Um novo dia começou",
    effects := ["reset_daily_abilities", "check_mission_deadlines"] }

/-- The `season_change` event dictionary. -/
def season_change_event (new_season : String) : TemporalEvent :=
  { type := "season_change",
    description := "A estação mudou para " ++ new_season,
    effects := ["weather_change", "seasonal_events"] }

/-- The `moon_phase_change` event dictionary. -/
def moon_phase_change_event (new_phase : String) : TemporalEvent :=
  { type := "moon_phase_change",
    description := "A lua entrou na fase " ++ new_phase,
    effects := ["magical_effects", "creature_behavior"] }

/-- The `midnight` event dictionary. -/
def midnight_event : TemporalEvent :=
  { type := "midnight", description := "Meia-noite chegou",
    effects := ["supernatural_activity"] }

/-- The `noon` event dictionary. -/
def noon_event : TemporalEvent :=
  { type := "noon", description := "Meio-dia chegou",
    effects := ["peak_sunlight"] }

/-- `TimeAgent._check_temporal_events`: compares the old and new times and
emits day/season/moon-phase change events plus midnight/noon hour events
(midnight and noon are mutually exclusive branches). -/
def check_temporal_events (current_time new_time : CampaignTime) :
    List TemporalEvent :=
  (if current_time.day ≠ new_time.day then [day_change_event] else []) ++
  (if current_time.season ≠ new_time.season then
    [season_change_event new_time.season] else []) ++
  (if current_time.moon_phase ≠ new_time.moon_phase then
    [moon_phase_change_event new_time.moon_phase] else []) ++
  (if new_time.hour = 0 ∧ current_time.hour ≠ 0 then [midnight_event]
   else if new_time.hour = 12 ∧ current_time.hour ≠ 12 then [noon_event]
   else [])

/-- The mock campaign time returned by `_get_campaign_time`. -/
def mockCampaignTime : CampaignTime :=
  { year := 1423, month := 7, day := 15, hour := 14, minute := 30,
    season := "summer", moon_phase := "waxing_gibbous", weather := "clear" }

/-! ### `app/agents/graph_state.py` and `app/agents/multiagent_graph.py`

The repository declares `SpecialistOutput` with field names
`source_agent`/`data` but every call site in the graph constructs it with
`agent_type`/`content` (the spec's §4.1 "open inconsistency").  The
embedding uses one schema — `source_agent` for the agent tag and `content`
for the generated content — and maps both naming conventions onto it.
Specialist metadata is modelled as a dictionary from string keys to lists
of update payloads (the only key the graph reads, `vector_store_updates`,
holds a list); an absent value for `referenced_ids`/`metadata` at a
construction site becomes the empty/`none` value.

Both `AgentState` and `SpecialistOutput` are declared as `TypedDict`
classes, so at runtime their instances are plain `dict`s: keyword
construction, `.copy()`, and subscripting behave as dictionary operations
(embedded as record operations), but the graph module's *attribute*
accesses on them (`state.selected_agents`, `error_state.final_narrative =
...`, `result.metadata`, ...) are attribute operations on `dict`
instances, which CPython rejects with `AttributeError` — a `dict` carries
no instance `__dict__` and its type defines none of these attributes.
The embedding therefore models each such attribute access as a raising
operation, and the statement sequences that contain them as `Except`
computations. -/

structure SpecialistOutput where
  source_agent : String
  content_type : String
  content : String
  referenced_ids : List (String × String)
  metadata : Option (List (String × List String))
  success : Bool
  error_message : Option String
deriving Repr, DecidableEq

/-- `BaseSpecialistAgent._create_success_output`. -/
def create_success_output (agent_type content content_type : String)
    (referenced_ids : List (String × String))
    (metadata : Option (List (String × List String))) : SpecialistOutput :=
  { source_agent := agent_type, content_type := content_type, content := content,
    referenced_ids := referenced_ids, metadata := metadata,
    success := true, error_message := none }

/-- `BaseSpecialistAgent._create_error_output`. -/
def create_error_output (agent_type error_message : String) : SpecialistOutput :=
  { source_agent := agent_type, content_type := "error", content := "",
    referenced_ids := [], metadata := none,
    success := false, error_message := some error_message }

/-- The error output `MultiAgentGraph._execute_specialist` builds in its
`except` branch. -/
def execute_specialist_error_output (agent_name e : String) : SpecialistOutput :=
  { source_agent := agent_name, content := "", content_type := "error",
    referenced_ids := [], success := false,
    error_message := some ("Erro na execução do agente " ++ agent_name ++ ": " ++ e),
    metadata := some [] }

/-- The per-task error output `_specialists_node` builds when a gathered
result is an exception object (in the source this covers exceptions that
escape `_execute_specialist`'s own `except Exception` handler). -/
def specialists_node_task_error_output (agent_name e : String) : SpecialistOutput :=
  { source_agent := agent_name, content := "", content_type := "error",
    referenced_ids := [], success := false, error_message := some e,
    metadata := some [] }

/-- The generic system error output of `_specialists_node`'s outer
`except` handler; note its non-empty human-readable `content`. -/
def specialists_node_system_error_output (e : String) : SpecialistOutput :=
  { source_agent := "system",
    content := "Erro interno no processamento dos agentes especialistas.",
    content_type := "error", referenced_ids := [],
    success := false, error_message := some e, metadata := some [] }

/-- The error output `MultiAgentService.test_individual_agent` builds for
an unknown agent name. -/
def test_agent_not_found_output (agent_name : String) : SpecialistOutput :=
  { source_agent := agent_name, content := "", content_type := "error",
    referenced_ids := [], success := false,
    error_message := some ("Agente '" ++ agent_name ++ "' não encontrado"),
    metadata := some [] }

/-- The error output `MultiAgentService.test_individual_agent` builds when
the invoked agent raises. -/
def test_agent_error_output (agent_name e : String) : SpecialistOutput :=
  { source_agent := agent_name, content := "", content_type := "error",
    referenced_ids := [], success := false, error_message := some e,
    metadata := some [] }

/-- The outer `try/except` of `_specialists_node`: a failure of the whole
node body is replaced by the single generic system error output. -/
def specialists_node_recover
    (r : Except String (List SpecialistOutput × List String)) :
    List SpecialistOutput × List String :=
  match r with
  | .ok x => x
  | .error e => ([specialists_node_system_error_output e], [])

/-- The spec's SpecialistOutput invariant: a failed output has empty
content and a populated error message; a successful output has no error
message. -/
def outputInvariant (o : SpecialistOutput) : Prop :=
  (o.success = false → o.content = "" ∧ o.error_message ≠ none) ∧
  (o.success = true → o.error_message = none)

instance (o : SpecialistOutput) : Decidable (outputInvariant o) := by
  unfold outputInvariant; infer_instance

/-- The `AgentState` record as the graph module constructs and updates it
(`process_user_input`'s construction site fixes the field set actually
used by the pipeline).  The world context dictionary is carried as an
association list; timestamps and durations are integer seconds from the
explicit clock parameters. -/
structure AgentState where
  user_input : String
  world_context : List (String × String)
  selected_agents : List String
  specialist_outputs : List SpecialistOutput
  final_narrative : String
  execution_duration : Int
  vector_store_updates : List String
  execution_metadata : List (String × String)
deriving Repr, DecidableEq

/-- The `AttributeError` CPython raises for an attribute operation on a
`dict` instance. -/
def attribute_error (attr : String) : String :=
  "AttributeError: 'dict' object has no attribute '" ++ attr ++ "'"

/-- Reading an attribute of an `AgentState` instance
(`state.selected_agents`, `state.user_input`, ...): `AgentState` is a
`TypedDict` (graph_state.py:13), so the instance is a plain `dict` and the
read raises `AttributeError` whatever the state holds. -/
def agent_state_getattr (α : Type) (_state : AgentState) (attr : String) :
    Except String α :=
  .error (attribute_error attr)

/-- Assigning an attribute of an `AgentState` instance
(`error_state.final_narrative = ...`): attribute assignment on a `dict`
raises `AttributeError` whatever value is assigned. -/
def agent_state_setattr {α : Type} (_state : AgentState) (attr : String)
    (_value : α) : Except String AgentState :=
  .error (attribute_error attr)

/-- The fresh state `process_user_input` builds before invoking the
graph; `world_context_size` is `len(str(world_context))`, the character
length of the dict's rendering. -/
def initial_state (now : Int) (user_input : String)
    (world_context : List (String × String)) : AgentState :=
  { user_input := user_input
    world_context := world_context
    selected_agents := []
    specialist_outputs := []
    final_narrative := ""
    execution_duration := 0
    vector_store_updates := []
    execution_metadata :=
      [("start_time", toString now),
       ("user_input_length", toString user_input.length),
       ("world_context_size", toString (pyStrOfDict world_context).length)] }

/-- `MultiAgentGraph.process_user_input`: builds the fresh state and runs
the graph (whose outcome — a final state or a raised exception — is the
`graph_run` parameter).  A successful pipeline's state is returned; the
`except` branch runs statement by statement: `initial_state.copy()`
succeeds (a `dict` copy), but the next statement assigns the attribute
`final_narrative` on the copied `TypedDict` dict and raises
`AttributeError`, which propagates to the caller; the remaining
statements (the `execution_duration` assignment, whose right-hand side
also reads `initial_state.execution_metadata`, and the
`execution_metadata` update) never run.  `now` is the entry clock and
`now2` the clock at the error handler. -/
def process_user_input (now now2 : Int)
    (graph_run : AgentState → Except String AgentState)
    (user_input : String) (world_context : List (String × String)) :
    Except String AgentState :=
  let initial := initial_state now user_input world_context
  match graph_run initial with
  | .ok final => .ok final
  | .error e => do
    let error_state := initial
    let error_state ← agent_state_setattr error_state "final_narrative"
      ("Erro no processamento: " ++ e)
    let _start_metadata ←
      agent_state_getattr (List (String × String)) initial "execution_metadata"
    let error_state ← agent_state_setattr error_state "execution_duration"
      (now2 - now)
    let metadata ←
      agent_state_getattr (List (String × String)) error_state "execution_metadata"
    pure { error_state with
      execution_metadata := metadata ++ [("system_error", e)] }

/-! ## Theorems -/

/-- Looking a key up right after `dictInsert` finds the inserted entry. -/
theorem find?_dictInsert (key : String) (e : CacheEntry) (c : CacheDict) :
    (dictInsert key e c).find? (fun p => p.1 == key) = some (key, e) := by
  induction c with
  | nil => simp [dictInsert]
  | cons hd tl ih =>
    obtain ⟨k, v⟩ := hd
    unfold dictInsert
    by_cases h : k = key
    · subst h
      simp
    · simp [h, ih]

/-- C9: `CacheManager.set` with `expire_seconds=0` stores an entry with no
expiry time, so any later `get` of the key — at any clock value — returns
the stored value: a zero expiry means "never expires". -/
theorem cache_set_zero_expiry_never_expires
    (now later : Int) (key value : String) (cache : CacheDict) :
    (cache_get later key (cache_set now key value (some 0) cache)).1 = some value := by
  unfold cache_set
  simp only [if_pos rfl]
  unfold cache_get
  rw [find?_dictInsert]
  simp

/-- C4 (code evaluated at the failing input): `clear_user_cache` uses the
pattern `multiagent:*:user:u1:*`, whose inner `*` is matched literally by
`delete_pattern` (only the trailing `*` is a wildcard), so a cache holding
an entry whose key was generated for user `u1` by `generate_cache_key` is
left untouched and the returned count is 0. -/
theorem clear_user_cache_misses_generated_key :
    clear_user_cache "u1" [(generate_cache_key 111 "u1" 222, ⟨"v", 0, none⟩)]
      = (0, [(generate_cache_key 111 "u1" 222, ⟨"v", 0, none⟩)]) := by
  decide

/-- C1 (code evaluated at the failing input): a request from `127.0.0.1`
carrying no Authorization header is rejected with 401 by the
`jwt_bearer` dependency before `get_authenticated_user`'s localhost check
can run, for every backend verifier and subject decoder — it does not
resolve to `localhost_user`. -/
theorem localhost_without_header_rejected
    (verify_token : String → Bool) (decode_sub : String → Option String) :
    get_authenticated_user verify_token decode_sub
      { client_host := some "127.0.0.1", authorization := none } = .error 401 := rfl

/-- C10: `_update_campaign_time` never writes into the caller's
`current_time` mapping — every statement of its body updates only the
fresh `new_time` copy — so after the call the caller's pre-update time is
unchanged (which is what lets `_check_temporal_events` compare the old and
new times). -/
theorem update_campaign_time_preserves_current
    (t : CampaignTime) (p : TimePassage) :
    (update_campaign_time_run t p).current_time = t := rfl

/-- C2 (code evaluated at the failing input): whenever the pipeline fails,
`process_user_input`'s `except` handler itself raises — its first
statement assigns the attribute `final_narrative` on the copied
`TypedDict` state, an `AttributeError` on a `dict` — so the caller
receives that exception instead of an error-flavored `AgentState`; the
error-narrative state is never returned. -/
theorem process_user_input_error_path_raises
    (now now2 : Int) (graph_run : AgentState → Except String AgentState)
    (user_input : String) (world_context : List (String × String)) (e : String)
    (h : graph_run (initial_state now user_input world_context) = .error e) :
    process_user_input now now2 graph_run user_input world_context
      = .error (attribute_error "final_narrative") := by
  simp only [process_user_input, h]
  rfl

/-- Witness for C2 at a concrete failing pipeline. -/
theorem process_user_input_error_path_raises_witness :
    process_user_input 0 1 (fun _ => .error "falha") "olá" []
      = .error (attribute_error "final_narrative") :=
  process_user_input_error_path_raises 0 1 (fun _ => .error "falha") "olá" [] "falha" rfl

/-- C6: the rules agent's consequence analysis classifies by margin —
`≥ 3` critical success (high impact, bonus_outcome), `0 ≤ margin < 3`
success (medium), `−2 ≤ margin < 0` partial success (medium,
complication), `< −2` failure (high, consequence) — and on the spec's
concrete dice tests with difficulty 2: total 5 → critical_success,
total 2 → success, total 0 → partial_success, total −3 → failure. -/
theorem analyze_rule_consequences_classification (d : DiceResult) :
    (d.margin ≥ 3 → analyze_rule_consequences (some d)
      = ⟨"critical_success", "high", ["bonus_outcome"]⟩) ∧
    (0 ≤ d.margin → d.margin < 3 → analyze_rule_consequences (some d)
      = ⟨"success", "medium", []⟩) ∧
    (-2 ≤ d.margin → d.margin < 0 → analyze_rule_consequences (some d)
      = ⟨"partial_success", "medium", ["complication"]⟩) ∧
    (d.margin < -2 → analyze_rule_consequences (some d)
      = ⟨"failure", "high", ["consequence"]⟩) ∧
    analyze_rule_consequences (some (perform_dice_test 5 0 0 2))
      = ⟨"critical_success", "high", ["bonus_outcome"]⟩ ∧
    analyze_rule_consequences (some (perform_dice_test 2 0 0 2))
      = ⟨"success", "medium", []⟩ ∧
    analyze_rule_consequences (some (perform_dice_test 0 0 0 2))
      = ⟨"partial_success", "medium", ["complication"]⟩ ∧
    analyze_rule_consequences (some (perform_dice_test (-3) 0 0 2))
      = ⟨"failure", "high", ["consequence"]⟩ := by
  refine ⟨?_, ?_, ?_, ?_, by decide, by decide, by decide, by decide⟩
  · intro h
    simp only [analyze_rule_consequences]
    rw [if_pos h]
  · intro h0 h3
    simp only [analyze_rule_consequences]
    rw [if_neg (by omega), if_pos (by omega)]
  · intro h2 h0
    simp only [analyze_rule_consequences]
    rw [if_neg (by omega), if_neg (by omega), if_pos (by omega)]
  · intro h
    simp only [analyze_rule_consequences]
    rw [if_neg (by omega), if_neg (by omega), if_neg (by omega)]

/-- Witness for C6 at a concrete dice result with margin 3. -/
theorem analyze_rule_consequences_classification_witness :
    (perform_dice_test 3 2 0 2).margin ≥ 3 ∧
    analyze_rule_consequences (some (perform_dice_test 3 2 0 2))
      = ⟨"critical_success", "high", ["bonus_outcome"]⟩ :=
  ⟨by decide, (analyze_rule_consequences_classification (perform_dice_test 3 2 0 2)).1 (by decide)⟩

/-- C8 counterexample: the system error output constructed by
`_specialists_node`'s outer exception handler — the output the stage
yields when its whole body fails — has `success = false` but a non-empty
generated content, violating the claimed invariant. -/
theorem specialist_output_invariant_counterexample :
    (specialists_node_recover (.error "falha")).1
        = [specialists_node_system_error_output "falha"] ∧
    ¬ outputInvariant (specialists_node_system_error_output "falha") :=
  ⟨rfl, by decide⟩

/-- C8 amended: every `SpecialistOutput` built by the base agent's
success/error factories, `_execute_specialist`'s exception conversion,
`_specialists_node`'s per-task error conversion, and
`test_individual_agent`'s error paths satisfies the invariant (failure →
empty content and populated error message; success → no error message);
the sole exception is the specialists stage's whole-node failure output,
which carries a fixed human-readable content. -/
theorem specialist_output_invariant_amended
    (a content content_type e : String) (r : List (String × String))
    (m : Option (List (String × List String))) :
    outputInvariant (create_success_output a content content_type r m) ∧
    outputInvariant (create_error_output a e) ∧
    outputInvariant (execute_specialist_error_output a e) ∧
    outputInvariant (specialists_node_task_error_output a e) ∧
    outputInvariant (test_agent_not_found_output a) ∧
    outputInvariant (test_agent_error_output a e) := by
  refine ⟨?_, ?_, ?_, ?_, ?_, ?_⟩ <;>
    simp [outputInvariant, create_success_output, create_error_output,
      execute_specialist_error_output, specialists_node_task_error_output,
      test_agent_not_found_output, test_agent_error_output]

/-- `carryMonthsStep` only rewrites the year and month of `new_time`. -/
theorem carryMonthsStep_fields (s : TimeUpdateState) :
    (carryMonthsStep s).new_time.minute = s.new_time.minute ∧
    (carryMonthsStep s).new_time.hour = s.new_time.hour ∧
    (carryMonthsStep s).new_time.day = s.new_time.day := by
  unfold carryMonthsStep
  refine ⟨?_, ?_, ?_⟩ <;> (dsimp only; split <;> rfl)

/-- C7: from any campaign time at 23:50 (with the day below the 30-day
month boundary), the default 15-minute passage carries minutes into hours
at 60 and hours into days at 24, landing on minute 5 of hour 0 of the next
day, and the temporal-event check for this transition emits both the
`day_change` and the `midnight` event. -/
theorem time_carry_and_midnight (t : CampaignTime)
    (h23 : t.hour = 23) (h50 : t.minute = 50) (hday : t.day ≤ 29) :
    (update_campaign_time t defaultTimePassage).minute = 5 ∧
    (update_campaign_time t defaultTimePassage).hour = 0 ∧
    (update_campaign_time t defaultTimePassage).day = t.day + 1 ∧
    day_change_event ∈ check_temporal_events t (update_campaign_time t defaultTimePassage) ∧
    midnight_event ∈ check_temporal_events t (update_campaign_time t defaultTimePassage) := by
  obtain ⟨y, mo, d, hh, mi, se, mp, w⟩ := t
  change hh = 23 at h23
  change mi = 50 at h50
  change d ≤ 29 at hday
  subst h23
  subst h50
  have h1 : addHoursStep defaultTimePassage (addMinutesStep defaultTimePassage
      (timeCopyStep ⟨y, mo, d, 23, 50, se, mp, w⟩)) =
      { current_time := ⟨y, mo, d, 23, 50, se, mp, w⟩,
        new_time := ⟨y, mo, d, 24, 5, se, mp, w⟩ } := by
    simp only [addMinutesStep, addHoursStep, timeCopyStep, defaultTimePassage]
    norm_num
    decide
  have h2 : carryHoursStep
      ({ current_time := ⟨y, mo, d, 23, 50, se, mp, w⟩,
         new_time := ⟨y, mo, d, 24, 5, se, mp, w⟩ } : TimeUpdateState) =
      { current_time := ⟨y, mo, d, 23, 50, se, mp, w⟩,
        new_time := ⟨y, mo, d + 1, 0, 5, se, mp, w⟩ } := by
    simp only [carryHoursStep]
    norm_num
  have h3 : carryDaysStep
      ({ current_time := ⟨y, mo, d, 23, 50, se, mp, w⟩,
         new_time := ⟨y, mo, d + 1, 0, 5, se, mp, w⟩ } : TimeUpdateState) =
      { current_time := ⟨y, mo, d, 23, 50, se, mp, w⟩,
        new_time := ⟨y, mo, d + 1, 0, 5, se, mp, w⟩ } := by
    simp only [carryDaysStep]
    rw [if_neg (by omega)]
  have hu : update_campaign_time ⟨y, mo, d, 23, 50, se, mp, w⟩ defaultTimePassage
      = (derivedFieldsStep (carryMonthsStep
          { current_time := ⟨y, mo, d, 23, 50, se, mp, w⟩,
            new_time := ⟨y, mo, d + 1, 0, 5, se, mp, w⟩ })).new_time := by
    unfold update_campaign_time update_campaign_time_run
    rw [h1, h2, h3]
  have hfields := carryMonthsStep_fields
    { current_time := ⟨y, mo, d, 23, 50, se, mp, w⟩,
      new_time := ⟨y, mo, d + 1, 0, 5, se, mp, w⟩ }
  have hmin : (update_campaign_time ⟨y, mo, d, 23, 50, se, mp, w⟩ defaultTimePassage).minute = 5 := by
    rw [hu]
    simpa [derivedFieldsStep] using hfields.1
  have hhour : (update_campaign_time ⟨y, mo, d, 23, 50, se, mp, w⟩ defaultTimePassage).hour = 0 := by
    rw [hu]
    simpa [derivedFieldsStep] using hfields.2.1
  have hd : (update_campaign_time ⟨y, mo, d, 23, 50, se, mp, w⟩ defaultTimePassage).day = d + 1 := by
    rw [hu]
    simpa [derivedFieldsStep] using hfields.2.2
  refine ⟨hmin, hhour, hd, ?_, ?_⟩
  · unfold check_temporal_events
    rw [if_pos (show (d : Int) ≠ _ by rw [hd]; omega)]
    simp
  · unfold check_temporal_events
    rw [if_pos (show _ ∧ _ from ⟨hhour, show (23 : Int) ≠ 0 by omega⟩)]
    simp

/-- Witness for C7 at the mock campaign time moved to 23:50. -/
theorem time_carry_and_midnight_witness :
    (update_campaign_time { mockCampaignTime with hour := 23, minute := 50 }
      defaultTimePassage).minute = 5 :=
  (time_carry_and_midnight { mockCampaignTime with hour := 23, minute := 50 }
    rfl rfl (by decide)).1

/-- C5 counterexample: on the file `K=a\` / `b` / `C=d` the parser commits
`K = "ab\nC=d\n"` at end of file — the non-continued line `b` does not
commit the variable, no newline separates `a` from `b`, and the later
`C=d` line is swallowed into `K`'s value — whereas the claimed semantics
commits `K = "a\nb"` at the non-continued line and then `C = "d"`. -/
theorem load_env_differs_from_claimed :
    load_env ["K=a\\", "b", "C=d"] = [("K", "ab\nC=d\n")] ∧
    load_env_claimed ["K=a\\", "b", "C=d"] = [("K", "a\nb"), ("C", "d")] ∧
    load_env ["K=a\\", "b", "C=d"] ≠ load_env_claimed ["K=a\\", "b", "C=d"] := by
  refine ⟨by decide, by decide, by decide⟩

/-- `load_env_step` commits onto whatever was already committed. -/
theorem load_env_step_split (st : EnvState) (l : String) :
    load_env_step st l =
      { current_var := (load_env_step { st with committed := [] } l).current_var,
        current_value := (load_env_step { st with committed := [] } l).current_value,
        committed := st.committed ++ (load_env_step { st with committed := [] } l).committed } := by
  obtain ⟨cv, val, env⟩ := st
  unfold load_env_step
  dsimp only
  split_ifs <;> simp

/-- Folding `load_env_step` only ever appends to the committed list. -/
theorem foldl_load_env_committed (lines : List String) (cv : Option String)
    (val : String) (env : List (String × String)) :
    lines.foldl load_env_step ⟨cv, val, env⟩ =
      { current_var := (lines.foldl load_env_step ⟨cv, val, []⟩).current_var,
        current_value := (lines.foldl load_env_step ⟨cv, val, []⟩).current_value,
        committed := env ++ (lines.foldl load_env_step ⟨cv, val, []⟩).committed } := by
  induction lines generalizing cv val env with
  | nil => simp
  | cons l ls ih =>
    simp only [List.foldl_cons]
    rw [load_env_step_split ⟨cv, val, env⟩ l]
    dsimp only
    rw [ih _ _ (env ++ (load_env_step ⟨cv, val, []⟩ l).committed),
        ih _ _ (load_env_step ⟨cv, val, []⟩ l).committed]
    simp

/-- A string extended with a backslash ends with a backslash. -/
theorem endsWith_backslash (v : String) : pyEndsWith (v ++ "\\") "\\" = true := by
  simp [pyEndsWith, List.isSuffixOf, List.isPrefixOf]

/-- Dropping the final character of a string extended with a backslash
recovers the string. -/
theorem dropLast_backslash (v : String) :
    (⟨(v ++ "\\").data.dropLast⟩ : String) = v := by
  apply String.ext
  simp

/-- While a variable is open, each non-blank, non-comment continuation
line is appended to the accumulated value followed by a newline, and
nothing is committed. -/
theorem foldl_continuation_lines (conts : List String) (k : String) (hk : k ≠ "")
    (val : String) (env : List (String × String))
    (hconts : ∀ c ∈ conts, pyStrip c = c ∧ c ≠ "" ∧
      pyStartsWith c "#" = false ∧ pyEndsWith c "\\" = false) :
    conts.foldl load_env_step ⟨some k, val, env⟩
      = ⟨some k, val ++ joinContinuations conts, env⟩ := by
  induction conts generalizing val with
  | nil => simp [joinContinuations]
  | cons c cs ih =>
    obtain ⟨hstrip, hne, hcom, hbs⟩ := hconts c (List.mem_cons_self c cs)
    have hstep : load_env_step ⟨some k, val, env⟩ c = ⟨some k, val ++ c ++ "\n", env⟩ := by
      unfold load_env_step
      dsimp only
      rw [hstrip]
      rw [if_neg hne, if_neg (by simp [hcom]), if_neg (by simp [varTruthy, hk]),
          if_pos (by simp [varTruthy, hk]), if_neg (by simp [hbs])]
    simp only [List.foldl_cons, hstep]
    rw [ih _ (fun c hc => hconts c (List.mem_cons_of_mem _ hc))]
    simp [joinContinuations, String.append_assoc]

/-- C5 amended: a `KEY=value\` header opens a continuation; each
continuation line has its trailing backslash (if any) stripped and is
appended followed by a newline — so there is no newline between the
header's value segment and the first continuation and the committed value
ends in a newline; a non-continued line does not commit but keeps
accumulating; `#` lines are skipped; the variable is committed (when its
accumulated value is non-empty) only once a blank line is reached or the
file ends, after which parsing of the remaining lines proceeds
independently. -/
theorem load_env_block (header k v : String) (conts rest : List String)
    (hh : pyStrip header = header) (hne : header ≠ "")
    (hcom : pyStartsWith header "#" = false)
    (heq : pyContainsChar header '=' = true)
    (hsplit : pySplitFirstStripped '=' header = (k, v ++ "\\"))
    (hk : k ≠ "")
    (hconts : ∀ c ∈ conts, pyStrip c = c ∧ c ≠ "" ∧
      pyStartsWith c "#" = false ∧ pyEndsWith c "\\" = false)
    (hval : v ++ joinContinuations conts ≠ "") :
    load_env (header :: conts ++ [""] ++ rest)
      = (k, v ++ joinContinuations conts) :: load_env rest := by
  have hstep : load_env_step ⟨none, "", []⟩ header = ⟨some k, v, []⟩ := by
    unfold load_env_step
    dsimp only
    rw [hh, if_neg hne, if_neg (by simp [hcom]),
        if_pos (by simp [varTruthy, heq]), hsplit]
    dsimp only
    rw [if_neg (by simp [endsWith_backslash]), dropLast_backslash]
  have hblank : load_env_step ⟨some k, v ++ joinContinuations conts, []⟩ ""
      = ⟨none, "", [(k, v ++ joinContinuations conts)]⟩ := by
    unfold load_env_step
    dsimp only
    rw [show pyStrip "" = "" from rfl]
    rw [if_pos rfl, if_pos (by simp [varTruthy, hk, hval])]
    rfl
  unfold load_env
  simp only [List.foldl_cons, List.foldl_append, hstep]
  rw [foldl_continuation_lines conts k hk v [] hconts]
  simp only [List.foldl_cons, List.foldl_nil, hblank]
  rw [foldl_load_env_committed rest none "" [(k, v ++ joinContinuations conts)]]
  dsimp only
  split_ifs <;> simp

/-- Witness for C5's amended statement on the file `K=a\` / `b` / blank. -/
theorem load_env_block_witness :
    load_env ("K=a\\" :: ["b"] ++ [""] ++ [])
      = ("K", "a" ++ joinContinuations ["b"]) :: load_env [] :=
  load_env_block "K=a\\" "K" "a" ["b"] [] (by decide) (by decide) (by decide)
    (by decide) (by decide) (by decide) (by decide) (by decide)

end Mythoscape
